import Mathlib

/-!
# exit_failure_gen_class::generate_exit_failure

Shallow embedding of `src/cmake/gengetopt/skels/exit_failure.cc`.

The output stream is modelled by its content (a `String`); `stream << x`
is `stream ++ x`.  The class fields `handle_error` and `parser_name` are
explicit arguments.  The helper `generate_string` is declared in
`exit_failure.h`, which is not part of the source tree, so it is a parameter
of the embedding.

In string literals the braces of the generated text are written with their
character codes: `\x7b` is the opening brace and `\x7d` the closing brace.
-/

set_option linter.unusedVariables false

namespace ExitFailure

/-- Type of the helper `generate_string (s, stream, indent)`: from the string
to write, the content of the stream and an indent, the new content of the
stream. -/
abbrev GenString := String → String → Nat → String

/-- Constructor `string (n, ' ')`: the string made of `n` spaces. -/
def spaces (n : Nat) : String := String.mk (List.replicate n ' ')

/-- Embedding of `exit_failure_gen_class::generate_exit_failure`.  The
argument passed to `generate_string` is an `unsigned int`, hence the
reduction modulo `2 ^ 32`; the indent itself is any natural number. -/
def generate_exit_failure (generate_string : GenString) (handle_error : Bool)
    (parser_name : String) (stream : String) (indent : Nat) : String :=
  let indent_str := spaces indent
  let indent := 0
  let stream :=
    if handle_error then
      let stream := stream ++ "if (result == EXIT_FAILURE)"
      let stream := stream ++ "\n"
      let stream := stream ++ indent_str
      let stream := stream ++ "  \x7b"
      let stream := stream ++ "\n"
      let stream := stream ++ indent_str
      let indent := 4
      let stream := stream ++ "    "
      let stream := generate_string parser_name stream ((indent + indent_str.length) % 2 ^ 32)
      let stream := stream ++ "_free (args_info);"
      let indent := 0
      let stream := stream ++ "\n"
      let stream := stream ++ indent_str
      let stream := stream ++ "    exit (EXIT_FAILURE);"
      let stream := stream ++ "\n"
      let stream := stream ++ indent_str
      let stream := stream ++ "  \x7d"
      let stream := stream ++ "\n"
      let stream := stream ++ indent_str
      let stream := stream ++ "\n"
      let stream := stream ++ indent_str
      stream
    else stream
  stream ++ "return result;"

/-- A helper that writes its string unchanged; it instantiates the
`generate_string` parameter at concrete inputs. -/
def generate_string_plain : GenString := fun s stream _ => stream ++ s

/-- Assumption on the helper: a string without newline is written as it is. -/
def Verbatim (gs : GenString) : Prop :=
  ∀ (s stream : String) (k : Nat), '\n' ∉ s.data → gs s stream k = stream ++ s

/-- Assumption on the helper: it only appends to the stream, and what it
appends does not depend on the content of the stream. -/
def AppendOnly (gs : GenString) : Prop :=
  ∀ (s stream : String) (k : Nat), gs s stream k = stream ++ gs s "" k

/-- Lines of a text: the pieces between newline characters. -/
def splitLines : List Char → List (List Char)
  | [] => [[]]
  | c :: cs =>
    if c = '\n' then [] :: splitLines cs
    else
      match splitLines cs with
      | [] => [[c]]
      | l :: ls => (c :: l) :: ls

/-- Final line of a text: what follows the last newline, or the whole text. -/
def lastLine (cs : List Char) : List Char := ((splitLines cs).getLast?).getD []

/-- Number of positions of `s` at which `pat` occurs. -/
def countOcc (pat : List Char) : List Char → Nat
  | [] => if pat = [] then 1 else 0
  | c :: cs => (if pat.isPrefixOf (c :: cs) then 1 else 0) + countOcc pat cs

/-- Lines of a string, as strings. -/
def lines (s : String) : List String := (splitLines s.data).map String.mk

/-- Final line of a string, as a string. -/
def finalLine (s : String) : String := String.mk (lastLine s.data)

/-- Number of newline characters of a string. -/
def newlineCount (s : String) : Nat := s.data.count '\n'

/-- A string without its leading spaces. -/
def stripSpaces (s : String) : String := String.mk (s.data.dropWhile (fun c => c == ' '))

/-- The statement every output ends with. -/
def stmt : List Char := "return result;".data

/-- The text of the error-handling block up to and including the last
newline, as the code writes it for a parser name without newline. -/
def guard_block (n : Nat) (P : String) : String :=
  "if (result == EXIT_FAILURE)\n" ++ spaces n ++ "  \x7b\n" ++ spaces n ++ "    " ++ P
    ++ "_free (args_info);\n" ++ spaces n ++ "    exit (EXIT_FAILURE);\n" ++ spaces n
    ++ "  \x7d\n" ++ spaces n ++ "\n"

/-- Output format of the spec with error handling: the final
`return result;` carries no indent. -/
def spec_format (n : Nat) (P : String) : String :=
  "if (result == EXIT_FAILURE)\n" ++ spaces n ++ "  \x7b\n" ++ spaces n ++ "    " ++ P
    ++ "_free (args_info);\n" ++ spaces n ++ "    exit (EXIT_FAILURE);\n" ++ spaces n
    ++ "  \x7d\n" ++ spaces n ++ "\n" ++ "return result;"

theorem plain_verbatim : Verbatim generate_string_plain := fun _ _ _ _ => rfl

theorem plain_appendOnly : AppendOnly generate_string_plain := by
  intro s stream k
  simp [generate_string_plain]

theorem gef_true (gs : GenString) (hgs : Verbatim gs) (P : String)
    (hP : '\n' ∉ P.data) (s : String) (n : Nat) :
    generate_exit_failure gs true P s n
      = s ++ (guard_block n P ++ (spaces n ++ "return result;")) := by
  simp only [generate_exit_failure, if_true, hgs _ _ _ hP, guard_block]
  apply String.ext
  simp

theorem gef_true_data (gs : GenString) (hgs : Verbatim gs) (P : String)
    (hP : '\n' ∉ P.data) (s : String) (n : Nat) :
    (generate_exit_failure gs true P s n).data
      = s.data ++ ("if (result == EXIT_FAILURE)".data ++ '\n' ::
          (List.replicate n ' ' ++ ("  \x7b".data ++ '\n' ::
          (List.replicate n ' ' ++ ("    ".data ++ P.data ++ "_free (args_info);".data) ++ '\n' ::
          (List.replicate n ' ' ++ ("    exit (EXIT_FAILURE);".data ++ '\n' ::
          (List.replicate n ' ' ++ ("  \x7d".data ++ '\n' ::
          (List.replicate n ' ' ++ '\n' ::
          (List.replicate n ' ' ++ "return result;".data)))))))))) := by
  rw [gef_true gs hgs P hP]
  simp [guard_block, spaces]

theorem splitLines_ne_nil (cs : List Char) : splitLines cs ≠ [] := by
  induction cs with
  | nil => simp [splitLines]
  | cons c cs ih =>
    unfold splitLines
    split
    · simp
    · split <;> simp

theorem splitLines_of_not_mem (l : List Char) (h : '\n' ∉ l) : splitLines l = [l] := by
  induction l with
  | nil => rfl
  | cons c cs ih =>
    simp only [List.mem_cons, not_or] at h
    have hc : c ≠ '\n' := fun e => h.1 e.symm
    simp [splitLines, hc, ih h.2]

theorem splitLines_append_newline (l r : List Char) (h : '\n' ∉ l) :
    splitLines (l ++ '\n' :: r) = l :: splitLines r := by
  induction l with
  | nil => simp [splitLines]
  | cons c cs ih =>
    simp only [List.mem_cons, not_or] at h
    have hc : c ≠ '\n' := fun e => h.1 e.symm
    simp [splitLines, hc, ih h.2]

theorem not_mem_replicate_space (n : Nat) : '\n' ∉ List.replicate n ' ' := by
  intro h
  have := List.eq_of_mem_replicate h
  exact absurd this (by decide)

theorem gef_true_lines_data (gs : GenString) (hgs : Verbatim gs) (P : String)
    (hP : '\n' ∉ P.data) (s : String) (n : Nat) :
    (generate_exit_failure gs true P s n).data
      = s.data ++ ("if (result == EXIT_FAILURE)".data ++ '\n' ::
          ((spaces n ++ "  \x7b").data ++ '\n' ::
          ((spaces n ++ "    " ++ P ++ "_free (args_info);").data ++ '\n' ::
          ((spaces n ++ "    exit (EXIT_FAILURE);").data ++ '\n' ::
          ((spaces n ++ "  \x7d").data ++ '\n' ::
          ((spaces n).data ++ '\n' ::
          (spaces n ++ "return result;").data)))))) := by
  rw [gef_true gs hgs P hP]
  simp [guard_block, spaces]

theorem splitLines_gef_true (gs : GenString) (hgs : Verbatim gs) (P : String)
    (hP : '\n' ∉ P.data) (n : Nat) :
    splitLines (generate_exit_failure gs true P "" n).data
      = [ "if (result == EXIT_FAILURE)".data,
          (spaces n ++ "  \x7b").data,
          (spaces n ++ "    " ++ P ++ "_free (args_info);").data,
          (spaces n ++ "    exit (EXIT_FAILURE);").data,
          (spaces n ++ "  \x7d").data,
          (spaces n).data,
          (spaces n ++ "return result;").data ] := by
  have hsp := not_mem_replicate_space n
  rw [gef_true_lines_data gs hgs P hP]
  simp only [String.data_append, List.nil_append, show ("" : String).data = [] from rfl]
  rw [splitLines_append_newline _ _ (by decide),
    splitLines_append_newline _ _ (by simp [spaces, hsp]),
    splitLines_append_newline _ _ (by simp [spaces, hsp, hP]),
    splitLines_append_newline _ _ (by simp [spaces, hsp]),
    splitLines_append_newline _ _ (by simp [spaces, hsp]),
    splitLines_append_newline _ _ (by simp [spaces, hsp]),
    splitLines_of_not_mem _ (by simp [spaces, hsp])]

theorem count_newline_line (l r : List Char) (h : '\n' ∉ l) :
    List.count '\n' (l ++ '\n' :: r) = List.count '\n' r + 1 := by
  rw [List.count_append, List.count_eq_zero_of_not_mem h, List.count_cons_self, Nat.zero_add]

theorem newlineCount_gef_true (gs : GenString) (hgs : Verbatim gs) (P : String)
    (hP : '\n' ∉ P.data) (n : Nat) :
    newlineCount (generate_exit_failure gs true P "" n) = 6 := by
  have hsp := not_mem_replicate_space n
  rw [newlineCount, gef_true_lines_data gs hgs P hP]
  simp only [String.data_append, List.nil_append, show ("" : String).data = [] from rfl]
  rw [count_newline_line _ _ (by decide),
    count_newline_line _ _ (by simp [spaces, hsp]),
    count_newline_line _ _ (by simp [spaces, hsp, hP]),
    count_newline_line _ _ (by simp [spaces, hsp]),
    count_newline_line _ _ (by simp [spaces, hsp]),
    count_newline_line _ _ (by simp [spaces, hsp]),
    List.count_eq_zero_of_not_mem (by simp [spaces, hsp])]

theorem lines_gef_true (gs : GenString) (hgs : Verbatim gs) (P : String)
    (hP : '\n' ∉ P.data) (n : Nat) :
    lines (generate_exit_failure gs true P "" n)
      = [ "if (result == EXIT_FAILURE)",
          spaces n ++ "  \x7b",
          spaces n ++ "    " ++ P ++ "_free (args_info);",
          spaces n ++ "    exit (EXIT_FAILURE);",
          spaces n ++ "  \x7d",
          spaces n,
          spaces n ++ "return result;" ] := by
  simp only [lines, splitLines_gef_true gs hgs P hP, List.map]

theorem spaces_add (n k : Nat) : spaces (n + k) = spaces k ++ spaces n := by
  apply String.ext
  simp only [spaces, String.data_append]
  rw [Nat.add_comm n k, List.replicate_add]

theorem lastLine_gef_true (gs : GenString) (hgs : Verbatim gs) (P : String)
    (hP : '\n' ∉ P.data) (n : Nat) :
    finalLine (generate_exit_failure gs true P "" n) = spaces n ++ "return result;" := by
  apply String.ext
  simp [finalLine, lastLine, splitLines_gef_true gs hgs P hP]

theorem finalLine_gef_false (gs : GenString) (P : String) (n : Nat) :
    finalLine (generate_exit_failure gs false P "" n) = "return result;" := by
  have h : generate_exit_failure gs false P "" n = "return result;" := by
    simp [generate_exit_failure]
  rw [h]
  decide

theorem gef_appendOnly (gs : GenString) (hgs : AppendOnly gs) (P s : String) (n : Nat) :
    generate_exit_failure gs true P s n
      = s ++ ("if (result == EXIT_FAILURE)\n" ++ spaces n ++ "  \x7b\n" ++ spaces n ++ "    "
          ++ gs P "" ((4 + (spaces n).length) % 2 ^ 32)
          ++ "_free (args_info);\n" ++ spaces n ++ "    exit (EXIT_FAILURE);\n" ++ spaces n
          ++ "  \x7d\n" ++ spaces n ++ "\n" ++ spaces n ++ "return result;") := by
  simp only [generate_exit_failure, if_true]
  rw [hgs]
  apply String.ext
  simp

theorem isPrefixOf_append_cons (c : Char) (pat : List Char) (hc : c ∉ pat) (l r : List Char) :
    pat.isPrefixOf (l ++ c :: r) = pat.isPrefixOf l := by
  induction pat generalizing l with
  | nil => simp
  | cons a as ih =>
    simp only [List.mem_cons, not_or] at hc
    cases l with
    | nil =>
      have : (a == c) = false := by simpa using fun e => hc.1 e.symm
      simp [List.isPrefixOf, this]
    | cons x xs => simp [List.isPrefixOf, ih hc.2]

theorem countOcc_cons (pat : List Char) (c : Char) (cs : List Char) :
    countOcc pat (c :: cs) = (if pat.isPrefixOf (c :: cs) then 1 else 0) + countOcc pat cs :=
  rfl

theorem countOcc_append_cons (c : Char) (pat : List Char) (hc : c ∉ pat) (hne : pat ≠ [])
    (l r : List Char) :
    countOcc pat (l ++ c :: r) = countOcc pat l + countOcc pat (c :: r) := by
  induction l with
  | nil => simp [countOcc, hne]
  | cons x xs ih =>
    have h := isPrefixOf_append_cons c pat hc (x :: xs) r
    simp only [List.cons_append] at h
    rw [List.cons_append, countOcc_cons, countOcc_cons pat x xs, h, ih]
    omega

theorem countOcc_stmt_cons (c : Char) (cs : List Char) :
    countOcc stmt (c :: cs) = (if stmt.isPrefixOf (c :: cs) then 1 else 0) + countOcc stmt cs :=
  rfl

theorem countOcc_stmt_nil : countOcc stmt [] = 0 := rfl

theorem stmt_isPrefixOf_cons (c : Char) (cs : List Char) :
    stmt.isPrefixOf (c :: cs)
      = ('r' == c && ['e', 't', 'u', 'r', 'n', ' ', 'r', 'e', 's', 'u', 'l', 't', ';'].isPrefixOf cs) :=
  rfl

theorem countOcc_stmt_spaces (n : Nat) (r : List Char) :
    countOcc stmt (List.replicate n ' ' ++ r) = countOcc stmt r := by
  induction n with
  | zero => simp
  | succ m ih =>
    rw [List.replicate_succ, List.cons_append, countOcc_stmt_cons, ih]
    simp [stmt, List.isPrefixOf]

theorem countOcc_stmt_name (l r : List Char) :
    countOcc stmt (l ++ '_' :: r) = countOcc stmt l + countOcc stmt r := by
  rw [countOcc_append_cons '_' stmt (by decide) (by decide), countOcc_stmt_cons]
  simp [stmt, List.isPrefixOf]

theorem countOcc_gef_true (gs : GenString) (hgs : Verbatim gs) (P : String)
    (hP : '\n' ∉ P.data) (n : Nat) :
    countOcc stmt (generate_exit_failure gs true P "" n).data = countOcc stmt P.data + 1 := by
  rw [gef_true_data gs hgs P hP]
  simp [countOcc_stmt_cons, countOcc_stmt_spaces, countOcc_stmt_name, countOcc_stmt_nil,
    stmt_isPrefixOf_cons]

/-- C1: without error handling the call appends the 14 characters
`return result;` and nothing else, whatever the indent, the parser name and
the helper. -/
theorem C1_no_handle_error (gs : GenString) (P s : String) (n : Nat) :
    generate_exit_failure gs false P s n = s ++ "return result;"
      ∧ "return result;".length = 14 := by
  constructor
  · simp [generate_exit_failure]
  · decide

/-- C2, as stated, fails: at indent 1 the output differs from the format of
the spec, whose last line has no indent. -/
theorem C2_spec_format_fails :
    generate_exit_failure generate_string_plain true "cmdline" "" 1
      ≠ spec_format 1 "cmdline" := by
  decide

/-- C2, amended: with error handling and a parser name without newline, the
call appends the block of the spec's format in which the final
`return result;` is preceded by the indent string as well. -/
theorem C2_code_format (gs : GenString) (hgs : Verbatim gs) (P : String)
    (hP : '\n' ∉ P.data) (s : String) (n : Nat) :
    generate_exit_failure gs true P s n
      = s ++ ("if (result == EXIT_FAILURE)\n" ++ spaces n ++ "  \x7b\n" ++ spaces n ++ "    " ++ P
          ++ "_free (args_info);\n" ++ spaces n ++ "    exit (EXIT_FAILURE);\n" ++ spaces n
          ++ "  \x7d\n" ++ spaces n ++ "\n" ++ spaces n ++ "return result;") := by
  rw [gef_true gs hgs P hP]
  apply String.ext
  simp [guard_block]

theorem C2_code_format_witness :
    Verbatim generate_string_plain ∧ '\n' ∉ "cmdline".data ∧
    generate_exit_failure generate_string_plain true "cmdline" "" 2
      = "" ++ ("if (result == EXIT_FAILURE)\n" ++ spaces 2 ++ "  \x7b\n" ++ spaces 2 ++ "    "
          ++ "cmdline" ++ "_free (args_info);\n" ++ spaces 2 ++ "    exit (EXIT_FAILURE);\n"
          ++ spaces 2 ++ "  \x7d\n" ++ spaces 2 ++ "\n" ++ spaces 2 ++ "return result;") :=
  ⟨plain_verbatim, by decide,
    C2_code_format generate_string_plain plain_verbatim "cmdline" (by decide) "" 2⟩

/-- C3: at indent 0, with error handling and a parser name without newline,
the call appends the six-line block with an empty indent prefix, followed by
`return result;`. -/
theorem C3_indent_zero (gs : GenString) (hgs : Verbatim gs) (P : String)
    (hP : '\n' ∉ P.data) (s : String) :
    generate_exit_failure gs true P s 0
      = s ++ ("if (result == EXIT_FAILURE)\n  \x7b\n    " ++ P
          ++ "_free (args_info);\n    exit (EXIT_FAILURE);\n  \x7d\n\nreturn result;") := by
  rw [gef_true gs hgs P hP]
  apply String.ext
  simp [guard_block, spaces]

theorem C3_indent_zero_witness :
    Verbatim generate_string_plain ∧ '\n' ∉ "cmdline".data ∧
    generate_exit_failure generate_string_plain true "cmdline" "" 0
      = "if (result == EXIT_FAILURE)\n  \x7b\n    cmdline_free (args_info);\n    exit (EXIT_FAILURE);\n  \x7d\n\nreturn result;" :=
  ⟨plain_verbatim, by decide,
    (C3_indent_zero generate_string_plain plain_verbatim "cmdline" (by decide) "").trans
      (by decide)⟩

/-- C4, as stated, fails: with error handling at indent 1 the final line is
not exactly `return result;`. -/
theorem C4_final_line_fails :
    finalLine (generate_exit_failure generate_string_plain true "cmdline" "" 1)
      ≠ "return result;" := by
  decide

/-- C4, amended: the final line of the output is `return result;` preceded
by the indent string when error handling is on and by nothing when it is off;
it is exactly `return result;` without error handling or at indent 0. -/
theorem C4_final_line (gs : GenString) (hgs : Verbatim gs) (P : String)
    (hP : '\n' ∉ P.data) (n : Nat) :
    (∀ h : Bool, finalLine (generate_exit_failure gs h P "" n)
        = (if h then spaces n else "") ++ "return result;")
      ∧ finalLine (generate_exit_failure gs false P "" n) = "return result;"
      ∧ (∀ h : Bool, finalLine (generate_exit_failure gs h P "" 0) = "return result;") := by
  refine ⟨?_, finalLine_gef_false gs P n, ?_⟩
  · intro h
    cases h
    · simp [finalLine_gef_false]
    · simp [lastLine_gef_true gs hgs P hP]
  · intro h
    cases h
    · exact finalLine_gef_false gs P 0
    · rw [lastLine_gef_true gs hgs P hP]
      decide

theorem C4_final_line_witness :
    Verbatim generate_string_plain ∧ '\n' ∉ "cmdline".data ∧
    ((∀ h : Bool, finalLine (generate_exit_failure generate_string_plain h "cmdline" "" 3)
        = (if h then spaces 3 else "") ++ "return result;")
      ∧ finalLine (generate_exit_failure generate_string_plain false "cmdline" "" 3)
        = "return result;"
      ∧ (∀ h : Bool, finalLine (generate_exit_failure generate_string_plain h "cmdline" "" 0)
        = "return result;")) :=
  ⟨plain_verbatim, by decide,
    C4_final_line generate_string_plain plain_verbatim "cmdline" (by decide) 3⟩

/-- C5: with error handling and a parser name without newline, the outputs
at indents `n` and `n + k` both have seven lines, the first line is the same,
and each of lines 2 to 6 at indent `n + k` is `k` spaces followed by the same
line at indent `n`, so what follows its leading spaces is unchanged. -/
theorem C5_indent_shift (gs : GenString) (hgs : Verbatim gs) (P : String)
    (hP : '\n' ∉ P.data) (n k : Nat) :
    (lines (generate_exit_failure gs true P "" n)).length = 7
      ∧ (lines (generate_exit_failure gs true P "" (n + k))).length = 7
      ∧ (lines (generate_exit_failure gs true P "" (n + k)))[0]?
          = (lines (generate_exit_failure gs true P "" n))[0]?
      ∧ ∀ i : Nat, 1 ≤ i → i ≤ 5 →
          ∃ l : String, (lines (generate_exit_failure gs true P "" n))[i]? = some l
            ∧ (lines (generate_exit_failure gs true P "" (n + k)))[i]? = some (spaces k ++ l)
            ∧ stripSpaces (spaces k ++ l) = stripSpaces l := by
  rw [lines_gef_true gs hgs P hP, lines_gef_true gs hgs P hP]
  refine ⟨rfl, rfl, rfl, ?_⟩
  intro i h1 h5
  have hstrip : ∀ l : String, stripSpaces (spaces k ++ l) = stripSpaces l := by
    intro l
    simp only [stripSpaces, spaces, String.data_append]
    congr 1
    induction k with
    | zero => rfl
    | succ m ih => simp [List.replicate_succ, List.dropWhile]
  have hi : i = 1 ∨ i = 2 ∨ i = 3 ∨ i = 4 ∨ i = 5 := by omega
  rcases hi with rfl | rfl | rfl | rfl | rfl
  · exact ⟨_, rfl, by simp [spaces_add, String.append_assoc], hstrip _⟩
  · exact ⟨_, rfl, by simp [spaces_add, String.append_assoc], hstrip _⟩
  · exact ⟨_, rfl, by simp [spaces_add, String.append_assoc], hstrip _⟩
  · exact ⟨_, rfl, by simp [spaces_add, String.append_assoc], hstrip _⟩
  · refine ⟨_, rfl, by simp [spaces_add], hstrip _⟩

theorem C5_indent_shift_witness :
    Verbatim generate_string_plain ∧ '\n' ∉ "cmdline".data ∧
    ((lines (generate_exit_failure generate_string_plain true "cmdline" "" 2)).length = 7
      ∧ (lines (generate_exit_failure generate_string_plain true "cmdline" "" (2 + 3))).length = 7
      ∧ (lines (generate_exit_failure generate_string_plain true "cmdline" "" (2 + 3)))[0]?
          = (lines (generate_exit_failure generate_string_plain true "cmdline" "" 2))[0]?
      ∧ ∀ i : Nat, 1 ≤ i → i ≤ 5 →
          ∃ l : String,
            (lines (generate_exit_failure generate_string_plain true "cmdline" "" 2))[i]? = some l
            ∧ (lines (generate_exit_failure generate_string_plain true "cmdline" "" (2 + 3)))[i]?
                = some (spaces 3 ++ l)
            ∧ stripSpaces (spaces 3 ++ l) = stripSpaces l) :=
  ⟨plain_verbatim, by decide,
    C5_indent_shift generate_string_plain plain_verbatim "cmdline" (by decide) 2 3⟩

/-- C6: the call only appends to the sink, and what it appends does not
depend on the prior content: the content after the call is the prior content
followed by the text the same call writes to an empty sink, so two calls with
the same inputs on two sinks append the same text. -/
theorem C6_append_only (gs : GenString) (hgs : AppendOnly gs) (h : Bool) (P : String)
    (n : Nat) :
    (∀ s : String, generate_exit_failure gs h P s n = s ++ generate_exit_failure gs h P "" n)
      ∧ ∀ s₁ s₂ t₁ t₂ : String,
          generate_exit_failure gs h P s₁ n = s₁ ++ t₁ →
          generate_exit_failure gs h P s₂ n = s₂ ++ t₂ → t₁ = t₂ := by
  have key : ∀ s : String,
      generate_exit_failure gs h P s n = s ++ generate_exit_failure gs h P "" n := by
    intro s
    cases h
    · simp [generate_exit_failure]
    · rw [gef_appendOnly gs hgs P s n, gef_appendOnly gs hgs P "" n]
      simp
  refine ⟨key, ?_⟩
  intro s₁ s₂ t₁ t₂ e₁ e₂
  rw [key s₁] at e₁
  rw [key s₂] at e₂
  have d₁ := congrArg String.data e₁
  have d₂ := congrArg String.data e₂
  simp only [String.data_append, List.append_cancel_left_eq] at d₁ d₂
  exact String.ext (d₁.symm.trans d₂)

theorem C6_append_only_witness :
    AppendOnly generate_string_plain ∧
    ((∀ s : String, generate_exit_failure generate_string_plain true "cmdline" s 2
        = s ++ generate_exit_failure generate_string_plain true "cmdline" "" 2)
      ∧ ∀ s₁ s₂ t₁ t₂ : String,
          generate_exit_failure generate_string_plain true "cmdline" s₁ 2 = s₁ ++ t₁ →
          generate_exit_failure generate_string_plain true "cmdline" s₂ 2 = s₂ ++ t₂ →
          t₁ = t₂) :=
  ⟨plain_appendOnly, C6_append_only generate_string_plain plain_appendOnly true "cmdline" 2⟩

/-- C7: with error handling and a parser name without newline, the output has
exactly six newline characters, and the six lines they end are, in order, the
`if` line without prefix, then the `{`, `P_free (args_info);`,
`exit (EXIT_FAILURE);` and `}` lines with the indent plus 2, 4, 4 and 2
spaces, then the indent alone. -/
theorem C7_six_lines (gs : GenString) (hgs : Verbatim gs) (P : String)
    (hP : '\n' ∉ P.data) (n : Nat) :
    newlineCount (generate_exit_failure gs true P "" n) = 6
      ∧ (lines (generate_exit_failure gs true P "" n)).take 6
          = [ "if (result == EXIT_FAILURE)",
              spaces n ++ "  \x7b",
              spaces n ++ "    " ++ P ++ "_free (args_info);",
              spaces n ++ "    exit (EXIT_FAILURE);",
              spaces n ++ "  \x7d",
              spaces n ] := by
  constructor
  · exact newlineCount_gef_true gs hgs P hP n
  · rw [lines_gef_true gs hgs P hP]
    rfl

theorem C7_six_lines_witness :
    Verbatim generate_string_plain ∧ '\n' ∉ "cmdline".data ∧
    (newlineCount (generate_exit_failure generate_string_plain true "cmdline" "" 2) = 6
      ∧ (lines (generate_exit_failure generate_string_plain true "cmdline" "" 2)).take 6
          = [ "if (result == EXIT_FAILURE)",
              spaces 2 ++ "  \x7b",
              spaces 2 ++ "    " ++ "cmdline" ++ "_free (args_info);",
              spaces 2 ++ "    exit (EXIT_FAILURE);",
              spaces 2 ++ "  \x7d",
              spaces 2 ]) :=
  ⟨plain_verbatim, by decide,
    C7_six_lines generate_string_plain plain_verbatim "cmdline" (by decide) 2⟩

/-- C8: with error handling and a parser name without newline, the text
after the last newline of the output is the indent string followed by
`return result;`. -/
theorem C8_return_indented (gs : GenString) (hgs : Verbatim gs) (P : String)
    (hP : '\n' ∉ P.data) (n : Nat) :
    finalLine (generate_exit_failure gs true P "" n) = spaces n ++ "return result;" :=
  lastLine_gef_true gs hgs P hP n

theorem C8_return_indented_witness :
    Verbatim generate_string_plain ∧ '\n' ∉ "cmdline".data ∧
    finalLine (generate_exit_failure generate_string_plain true "cmdline" "" 2)
      = spaces 2 ++ "return result;" :=
  ⟨plain_verbatim, by decide,
    C8_return_indented generate_string_plain plain_verbatim "cmdline" (by decide) 2⟩

/-- C9, as stated, fails: for the newline-free parser name `return result;`
the output with error handling contains the statement twice. -/
theorem C9_twice :
    '\n' ∉ "return result;".data ∧
    countOcc stmt
      (generate_exit_failure generate_string_plain true "return result;" "" 0).data = 2 := by
  decide

/-- C9, amended: for a parser name without newline, the output with error
handling is a text ending in a newline and the indent string, followed by the
output without error handling; every output ends with `return result;`; the
output without error handling contains the statement once, the output with
error handling once more than the parser name does, hence exactly once when
the parser name does not contain it. -/
theorem C9_guard_then_return (gs : GenString) (hgs : Verbatim gs) (P : String)
    (hP : '\n' ∉ P.data) (n : Nat) :
    (∃ g : String, generate_exit_failure gs true P "" n
        = (g ++ "\n" ++ spaces n) ++ generate_exit_failure gs false P "" n)
      ∧ (∀ h : Bool, ∃ t : String, generate_exit_failure gs h P "" n = t ++ "return result;")
      ∧ countOcc stmt (generate_exit_failure gs false P "" n).data = 1
      ∧ countOcc stmt (generate_exit_failure gs true P "" n).data = countOcc stmt P.data + 1
      ∧ (countOcc stmt P.data = 0 →
          ∀ h : Bool, countOcc stmt (generate_exit_failure gs h P "" n).data = 1) := by
  have hf : generate_exit_failure gs false P "" n = "return result;" := by
    simp [generate_exit_failure]
  have hcf : countOcc stmt (generate_exit_failure gs false P "" n).data = 1 := by
    rw [hf]
    decide
  refine ⟨⟨"if (result == EXIT_FAILURE)\n" ++ spaces n ++ "  \x7b\n" ++ spaces n ++ "    " ++ P
      ++ "_free (args_info);\n" ++ spaces n ++ "    exit (EXIT_FAILURE);\n" ++ spaces n
      ++ "  \x7d\n" ++ spaces n, ?_⟩, ?_, hcf, countOcc_gef_true gs hgs P hP n, ?_⟩
  · rw [hf, gef_true gs hgs P hP]
    apply String.ext
    simp [guard_block]
  · intro h
    cases h
    · exact ⟨"", by rw [hf]; rfl⟩
    · exact ⟨guard_block n P ++ spaces n, by
        rw [gef_true gs hgs P hP]
        apply String.ext
        simp⟩
  · intro h0 h
    cases h
    · exact hcf
    · rw [countOcc_gef_true gs hgs P hP n, h0]

theorem C9_guard_then_return_witness :
    Verbatim generate_string_plain ∧ '\n' ∉ "cmdline".data ∧
    ((∃ g : String, generate_exit_failure generate_string_plain true "cmdline" "" 2
        = (g ++ "\n" ++ spaces 2) ++ generate_exit_failure generate_string_plain false "cmdline" "" 2)
      ∧ (∀ h : Bool, ∃ t : String,
          generate_exit_failure generate_string_plain h "cmdline" "" 2 = t ++ "return result;")
      ∧ countOcc stmt (generate_exit_failure generate_string_plain false "cmdline" "" 2).data = 1
      ∧ countOcc stmt (generate_exit_failure generate_string_plain true "cmdline" "" 2).data
          = countOcc stmt "cmdline".data + 1
      ∧ (countOcc stmt "cmdline".data = 0 →
          ∀ h : Bool,
            countOcc stmt (generate_exit_failure generate_string_plain h "cmdline" "" 2).data = 1)) :=
  ⟨plain_verbatim, by decide,
    C9_guard_then_return generate_string_plain plain_verbatim "cmdline" (by decide) 2⟩

end ExitFailure
